import Mathlib

/-!
Shallow embedding of the express-library entity-lifecycle controllers
(`controllers/authorController.js` and the genre controller) together with the
document-store, validation-engine and response collaborators they rely on.
Identifiers model MongoDB ObjectIds as naturals; the document store is the
in-memory state threaded through each handler.
-/

/-! ## Validation-engine collaborator (validator.js semantics used by the chains) -/

/-- Whitespace recognised by the sanitizer trim (validator.js trims JS whitespace;
only these occur in form input). -/
def isWsChar (c : Char) : Bool :=
  c = ' ' || c = '\t' || c = '\n' || c = '\r' || c = Char.ofNat 11 || c = Char.ofNat 12

/-- The sanitizer chain step `.trim()`: strip leading and trailing whitespace. -/
def trimChars (s : String) : String :=
  String.mk (((s.data.dropWhile isWsChar).reverse.dropWhile isWsChar).reverse)

/-- One character of the sanitizer chain step `.escape()` (validator.js escape):
HTML-significant characters are replaced by entities, all others kept. -/
def escapeChar (c : Char) : List Char :=
  if c = '&' then "&amp;".data
  else if c = '"' then "&quot;".data
  else if c = Char.ofNat 39 then "&#x27;".data
  else if c = '<' then "&lt;".data
  else if c = '>' then "&gt;".data
  else if c = '/' then "&#x2F;".data
  else if c = '\\' then "&#x5C;".data
  else if c = Char.ofNat 96 then "&#96;".data
  else [c]

/-- The sanitizer chain step `.escape()` applied to a whole value. -/
def escapeHtml (s : String) : String :=
  String.mk ((s.data.map escapeChar).flatten)

/-- A character matched by the validator `isAlphanumeric` (en-US locale class). -/
def isAlnumChar (c : Char) : Bool :=
  (Char.ofNat 48 ≤ c && c ≤ Char.ofNat 57) ||
  (Char.ofNat 65 ≤ c && c ≤ Char.ofNat 90) ||
  (Char.ofNat 97 ≤ c && c ≤ Char.ofNat 122)

/-- The validator chain step `.isAlphanumeric()`: nonempty and every character
in the alphanumeric class. -/
def isAlphanumericStr (s : String) : Bool :=
  !s.data.isEmpty && s.data.all isAlnumChar

/-- Modelled from the spec: the Validation Engine's optional ISO-8601 date rule
(`.isISO8601()`, the express-validator library is an external collaborator, §6):
a calendar date `YYYY-MM-DD` with in-range month and day. -/
def isISO8601 (s : String) : Bool :=
  match s.splitOn "-" with
  | [y, m, d] =>
      y.length = 4 && m.length = 2 && d.length = 2 &&
      y.data.all Char.isDigit && m.data.all Char.isDigit && d.data.all Char.isDigit &&
      decide (1 ≤ (m.toNat?.getD 0) ∧ (m.toNat?.getD 0) ≤ 12 ∧
              1 ≤ (d.toNat?.getD 0) ∧ (d.toNat?.getD 0) ≤ 31)
  | _ => false

/-- One record of `errors.array()`: the offending field path and its message. -/
structure FieldError where
  path : String
  msg : String
deriving Repr, DecidableEq

/-- The chain `body('name', 'Genre name must contain at least 3 characters')
.trim().isLength(min 3).escape()` of `genre_create_post`: returns the sanitized
value replacing `req.body.name` and the collected errors. -/
def validateGenreCreateName (raw : String) : String × List FieldError :=
  let t := trimChars raw
  (escapeHtml t,
   if 3 ≤ t.length then []
   else [⟨"name", "Genre name must contain at least 3 characters"⟩])

/-- The chain `body('name', 'Invalid Genre Value').trim().isLength(min 1)
.escape()` of `genre_update_post`. -/
def validateGenreUpdateName (raw : String) : String × List FieldError :=
  let t := trimChars raw
  (escapeHtml t,
   if 1 ≤ t.length then []
   else [⟨"name", "Invalid Genre Value"⟩])

/-- The name chain shared by the author handlers:
`.trim().isLength(min 1).escape().withMessage(emptyMsg).isAlphanumeric()
.withMessage(alnumMsg)` — length is checked on the trimmed value, the
alphanumeric check on the escaped value, in chain order. -/
def validateNameField (raw fieldPath emptyMsg alnumMsg : String) :
    String × List FieldError :=
  let t := trimChars raw
  let v := escapeHtml t
  (v,
   (if 1 ≤ t.length then [] else [⟨fieldPath, emptyMsg⟩]) ++
   (if isAlphanumericStr v then [] else [⟨fieldPath, alnumMsg⟩]))

/-- The date chain `.optional(values falsy).isISO8601().toDate()`: an empty
(falsy) submission skips the whole chain and the entity field stays absent;
otherwise the value must be an ISO-8601 date. -/
def validateDateField (raw fieldPath msg : String) :
    Option String × List FieldError :=
  if raw = "" then (none, [])
  else if isISO8601 raw then (some raw, [])
  else (some raw, [⟨fieldPath, msg⟩])

/-- The raw author form body (`req.body`) as submitted. -/
structure AuthorForm where
  first_name : String
  family_name : String
  date_of_birth : String
  date_of_death : String
deriving Repr, DecidableEq

/-- The four validation chains of `author_create_post` / `author_update_post`
in declaration order; errors are collected in that order. -/
def validateAuthorForm (f : AuthorForm) :
    (String × String × Option String × Option String) × List FieldError :=
  let v1 := validateNameField f.first_name "first_name"
      "First name must be specified" "First name has non-alphanumeric characters"
  let v2 := validateNameField f.family_name "family_name"
      "Family name must be specified." "Family name has non-alphanumeric characters."
  let v3 := validateDateField f.date_of_birth "date_of_birth" "invalid date of birth"
  let v4 := validateDateField f.date_of_death "date_of_death" "invalid date of death"
  ((v1.1, v2.1, v3.1, v4.1), v1.2 ++ v2.2 ++ v3.2 ++ v4.2)

/-! ## Data model (document store collaborator) -/

/-- Modelled from the spec: the Genre schema (`models/genre.js` is not under
`src/`): `name` text, generated identifier, identifier-derived `url` (§3). -/
structure Genre where
  id : Nat
  name : String
deriving Repr, DecidableEq

/-- Modelled from the spec: the Author schema (`models/author.js` is not under
`src/`): names, optional dates, generated identifier, derived `url` (§3). -/
structure Author where
  id : Nat
  first_name : String
  family_name : String
  date_of_birth : Option String
  date_of_death : Option String
deriving Repr, DecidableEq

/-- Modelled from the spec: the Book schema (`models/book.js` is not under
`src/`): a Book holds a reference to exactly one Author and one Genre (§3). -/
structure Book where
  id : Nat
  title : String
  summary : String
  author : Nat
  genre : Nat
deriving Repr, DecidableEq

/-- The document store: the `Genre`, `Author` and `Book` collections, each in
natural (insertion) order. -/
structure Store where
  genres : List Genre
  authors : List Author
  books : List Book
deriving Repr, DecidableEq

/-- Modelled from the spec: the identifier-derived canonical link of a Genre
(the `url` virtual of `models/genre.js`, not under `src/`). -/
def genreUrl (id : Nat) : String := "/catalog/genre/" ++ toString id

/-- Modelled from the spec: the identifier-derived canonical link of an Author
(the `url` virtual of `models/author.js`, not under `src/`). -/
def authorUrl (id : Nat) : String := "/catalog/author/" ++ toString id

/-- `Model.findByIdAndUpdate(id, doc, {})` on the Genre collection: returns the
matched (pre-update) document, or `none` when the identifier matches nothing,
together with the collection after overwriting the matched document's fields
(the stored identifier is immutable). -/
def genreFindByIdAndUpdate (gs : List Genre) (id : Nat) (g : Genre) :
    Option Genre × List Genre :=
  (gs.find? (fun d => d.id == id),
   gs.map (fun d => if d.id == id then { g with id := d.id } else d))

/-- `Model.findByIdAndUpdate(id, doc, {})` on the Author collection. -/
def authorFindByIdAndUpdate (as : List Author) (id : Nat) (a : Author) :
    Option Author × List Author :=
  (as.find? (fun d => d.id == id),
   as.map (fun d => if d.id == id then { a with id := d.id } else d))

/-! ## Response collaborator -/

/-- The data mapping each `res.render` call passes to the View Renderer,
one shape per template call site. -/
inductive ViewData where
  | genreListView (title : String) (genre_list : List Genre)
  | genreDetailView (title : String) (genre : Genre) (genre_books : List Book)
  | genreFormView (title : String) (genre : Option Genre) (errors : Option (List FieldError))
  | genreDeleteView (title : String) (genre : Option Genre) (genre_books : List Book)
  | authorListView (title : String) (author_list : List Author)
  | authorDetailView (title : String) (author : Author) (author_books : List Book)
  | authorFormView (title : String) (author : Option Author) (errors : Option (List FieldError))
  | authorDeleteView (title : String) (author : Option Author) (author_books : List Book)
deriving Repr, DecidableEq

/-- One attempted response action: `res.render(view, data)` or
`res.redirect(url)`. When a handler attempts several (a missing early return),
only the first reaches the client; later ones fail at the HTTP layer because
headers were already sent. -/
inductive ResAction where
  | render (view : String) (data : ViewData)
  | redirect (url : String)
deriving Repr, DecidableEq

/-- Outcome of one handler invocation: the ordered response actions it
attempts, an error handed to `next` with an HTTP status, or the unhandled
TypeError raised by reading `.url` of a `null` store result (rejected promise,
passed to `next` by the asyncHandler wrapper with no status). -/
inductive HandlerResult where
  | respond (trace : List ResAction)
  | nextError (msg : String) (status : Nat)
  | nullUrlError
deriving Repr, DecidableEq

/-- The response action that actually reaches the client: the first attempted. -/
def HandlerResult.first : HandlerResult → Option ResAction
  | .respond trace => trace.head?
  | _ => none

/-- The render actions a handler attempts (empty for pure redirects/errors). -/
def HandlerResult.renders : HandlerResult → List ResAction
  | .respond trace => trace.filter (fun a => match a with | .render _ _ => true | _ => false)
  | _ => []

/-! ## Genre controller -/

/-- `genre_list`: `Genre.find()` in natural store order, rendered. -/
def genre_list (σ : Store) : HandlerResult :=
  .respond [.render "genre_list" (.genreListView "Genre List" σ.genres)]

/-- `genre_detail`: fetch the genre by id and the books referencing it; absent
genre propagates a 404 error. -/
def genre_detail (σ : Store) (paramsId : Nat) : HandlerResult :=
  let genre := σ.genres.find? (fun g => g.id == paramsId)
  let booksInGenre := σ.books.filter (fun b => b.genre == paramsId)
  match genre with
  | none => .nextError "Genre not found" 404
  | some g => .respond [.render "genre_detail" (.genreDetailView "Genre Detail" g booksInGenre)]

/-- `genre_create_get`: renders the empty form. -/
def genre_create_get : HandlerResult :=
  .respond [.render "genre_form" (.genreFormView "Create Genre" none none)]

/-- `genre_create_post`: validate/sanitize `name`, build the candidate genre
(`freshId` is the ObjectId generated by `new Genre`), re-render on validation
failure, otherwise redirect to a natural-key duplicate or insert and redirect. -/
def genre_create_post (σ : Store) (nameRaw : String) (freshId : Nat) :
    HandlerResult × Store :=
  let v := validateGenreCreateName nameRaw
  let genre : Genre := { id := freshId, name := v.1 }
  if !v.2.isEmpty then
    (.respond [.render "genre_form" (.genreFormView "Create Genre" (some genre) (some v.2))], σ)
  else
    match σ.genres.find? (fun g => g.name == v.1) with
    | some genreExists => (.respond [.redirect (genreUrl genreExists.id)], σ)
    | none =>
        (.respond [.redirect (genreUrl genre.id)],
         { σ with genres := σ.genres ++ [genre] })

/-- `genre_delete_get`: fetch genre and referencing books; on an absent genre
it redirects to `/catalog/genre` and then (no early return) still attempts the
render with a null genre. -/
def genre_delete_get (σ : Store) (paramsId : Nat) : HandlerResult :=
  let genre := σ.genres.find? (fun g => g.id == paramsId)
  let booksInGenre := σ.books.filter (fun b => b.genre == paramsId)
  .respond ((if genre = none then [ResAction.redirect "/catalog/genre"] else []) ++
    [.render "genre_delete" (.genreDeleteView "Delete Genre" genre booksInGenre)])

/-- `genre_delete_post`: guard on the books referencing the route-parameter id;
when none block, delete the document named by the form body (`req.body.genreid`)
and redirect to the list. -/
def genre_delete_post (σ : Store) (paramsId bodyGenreid : Nat) :
    HandlerResult × Store :=
  let genre := σ.genres.find? (fun g => g.id == paramsId)
  let booksInGenre := σ.books.filter (fun b => b.genre == paramsId)
  if booksInGenre.length > 0 then
    (.respond [.render "genre_delete" (.genreDeleteView "Delete Genre" genre booksInGenre)], σ)
  else
    (.respond [.redirect "/catalog/genres"],
     { σ with genres := σ.genres.filter (fun g => !(g.id == bodyGenreid)) })

/-- `genre_update_get`: on an absent genre it redirects to `/catalog/genres`
and then (no early return) still attempts the render with a null genre. -/
def genre_update_get (σ : Store) (paramsId : Nat) : HandlerResult :=
  let genre := σ.genres.find? (fun g => g.id == paramsId)
  .respond ((if genre = none then [ResAction.redirect "/catalog/genres"] else []) ++
    [.render "genre_form" (.genreFormView "Update Genre" genre none)])

/-- `genre_update_post`: validate (length ≥ 1 only), pin the candidate's id to
the route parameter, re-render on failure, otherwise `findByIdAndUpdate` and
redirect to `updatedGenre.url` — reading `.url` of the `null` returned for an
unknown id raises the unhandled TypeError. -/
def genre_update_post (σ : Store) (paramsId : Nat) (nameRaw : String) :
    HandlerResult × Store :=
  let v := validateGenreUpdateName nameRaw
  let genre : Genre := { id := paramsId, name := v.1 }
  if !v.2.isEmpty then
    (.respond [.render "genre_form" (.genreFormView "Update Genre" (some genre) (some v.2))], σ)
  else
    let u := genreFindByIdAndUpdate σ.genres paramsId genre
    match u.1 with
    | none => (.nullUrlError, σ)
    | some updatedGenre =>
        (.respond [.redirect (genreUrl updatedGenre.id)], { σ with genres := u.2 })

/-! ## Author controller -/

/-- `author_list`: `Author.find().sort(family_name ascending)`, rendered. -/
def author_list (σ : Store) : HandlerResult :=
  .respond [.render "author_list" (.authorListView "Author List"
    (List.insertionSort (fun a b : Author => a.family_name ≤ b.family_name) σ.authors))]

/-- `author_detail`: fetch the author by id and the books referencing it;
absent author propagates a 404 error. -/
def author_detail (σ : Store) (paramsId : Nat) : HandlerResult :=
  let author := σ.authors.find? (fun a => a.id == paramsId)
  let allBooksByAuthor := σ.books.filter (fun b => b.author == paramsId)
  match author with
  | none => .nextError "Author not found" 404
  | some a => .respond [.render "author_detail" (.authorDetailView "Author detail" a allBooksByAuthor)]

/-- `author_create_get`: renders the empty form. -/
def author_create_get : HandlerResult :=
  .respond [.render "author_form" (.authorFormView "Create Author" none none)]

/-- `author_create_post`: run the four validation chains, build the candidate
author (`freshId` from `new Author`), re-render on failure, otherwise redirect
to a natural-key (first_name, family_name) duplicate or save and redirect. -/
def author_create_post (σ : Store) (f : AuthorForm) (freshId : Nat) :
    HandlerResult × Store :=
  let v := validateAuthorForm f
  let author : Author :=
    { id := freshId, first_name := v.1.1, family_name := v.1.2.1,
      date_of_birth := v.1.2.2.1, date_of_death := v.1.2.2.2 }
  if !v.2.isEmpty then
    (.respond [.render "author_form" (.authorFormView "Create Author" (some author) (some v.2))], σ)
  else
    match σ.authors.find? (fun a =>
        a.first_name == author.first_name && a.family_name == author.family_name) with
    | some authorExists => (.respond [.redirect (authorUrl authorExists.id)], σ)
    | none =>
        (.respond [.redirect (authorUrl author.id)],
         { σ with authors := σ.authors ++ [author] })

/-- `author_delete_get`: fetch author and referencing books; on an absent
author it redirects to `/catalog/authors` and then (no early return) still
attempts the render with a null author. -/
def author_delete_get (σ : Store) (paramsId : Nat) : HandlerResult :=
  let author := σ.authors.find? (fun a => a.id == paramsId)
  let allBooksByAuthor := σ.books.filter (fun b => b.author == paramsId)
  .respond ((if author = none then [ResAction.redirect "/catalog/authors"] else []) ++
    [.render "author_delete" (.authorDeleteView "Delete Author" author allBooksByAuthor)])

/-- `author_delete_post`: guard on the books referencing the route-parameter
id; when none block, delete the document named by the form body
(`req.body.authorid`) and redirect to the list. -/
def author_delete_post (σ : Store) (paramsId bodyAuthorid : Nat) :
    HandlerResult × Store :=
  let author := σ.authors.find? (fun a => a.id == paramsId)
  let allBooksByAuthor := σ.books.filter (fun b => b.author == paramsId)
  if allBooksByAuthor.length > 0 then
    (.respond [.render "author_delete" (.authorDeleteView "Delete Author" author allBooksByAuthor)], σ)
  else
    (.respond [.redirect "/catalog/authors"],
     { σ with authors := σ.authors.filter (fun a => !(a.id == bodyAuthorid)) })

/-- `author_update_get`: absent author propagates a 404 error, otherwise the
form is rendered with the current values. -/
def author_update_get (σ : Store) (paramsId : Nat) : HandlerResult :=
  match σ.authors.find? (fun a => a.id == paramsId) with
  | none => .nextError "Author not found" 404
  | some a => .respond [.render "author_form" (.authorFormView "Update Author" (some a) none)]

/-- `author_update_post`: validate, pin the candidate's id to the route
parameter, re-render on failure, otherwise `findByIdAndUpdate` (result unused)
and redirect to the candidate's own `url`. -/
def author_update_post (σ : Store) (paramsId : Nat) (f : AuthorForm) :
    HandlerResult × Store :=
  let v := validateAuthorForm f
  let updatedAuthor : Author :=
    { id := paramsId, first_name := v.1.1, family_name := v.1.2.1,
      date_of_birth := v.1.2.2.1, date_of_death := v.1.2.2.2 }
  if !v.2.isEmpty then
    (.respond [.render "author_form" (.authorFormView "Update Author" (some updatedAuthor) (some v.2))], σ)
  else
    let u := authorFindByIdAndUpdate σ.authors paramsId updatedAuthor
    (.respond [.redirect (authorUrl updatedAuthor.id)], { σ with authors := u.2 })

/-! ## Auxiliary definitions for the verification -/

instance : IsTotal Author (fun a b => a.family_name ≤ b.family_name) :=
  ⟨fun a b => le_total a.family_name b.family_name⟩

instance : IsTrans Author (fun a b => a.family_name ≤ b.family_name) :=
  ⟨fun _ _ _ hab hbc => le_trans hab hbc⟩

/-- A store with no documents at all. -/
def emptyStore : Store := ⟨[], [], []⟩

/-- A store where genre 1 has no referencing Book while genre 2 is referenced
by book 10. -/
def mismatchStore : Store :=
  ⟨[⟨1, "AAA"⟩, ⟨2, "BBB"⟩], [], [⟨10, "t", "s", 0, 2⟩]⟩

/-! ## Helper lemmas about the sanitizers -/

/-- An alphanumeric character is not HTML-significant, so escaping keeps it. -/
theorem escapeChar_of_alnum {c : Char} (h : isAlnumChar c = true) : escapeChar c = [c] := by
  unfold escapeChar
  repeat' split
  all_goals first
    | rfl
    | (rename_i hc; subst hc; exact absurd h (by decide))

/-- Escaping a non-alphanumeric character yields at least one non-alphanumeric
character (the entities all start with the ampersand). -/
theorem escapeChar_not_alnum {c : Char} (h : isAlnumChar c = false) :
    ∃ d ∈ escapeChar c, isAlnumChar d = false := by
  unfold escapeChar
  repeat' split
  all_goals first
    | exact ⟨c, List.mem_singleton.mpr rfl, h⟩
    | exact ⟨Char.ofNat 38, by decide, by decide⟩

/-- Escaping a character never yields the empty string. -/
theorem escapeChar_ne_nil (c : Char) : escapeChar c ≠ [] := by
  unfold escapeChar
  repeat' split
  all_goals simp

/-- Flattening singletons is the identity. -/
theorem flatten_map_singleton (l : List Char) : (l.map (fun c => [c])).flatten = l := by
  induction l with
  | nil => rfl
  | cons c cs ih => simp [ih]

/-- The chain order `.escape().isAlphanumeric()` checks the escaped value, but
escaping does not change the alphanumeric verdict. -/
theorem isAlphanumericStr_escapeHtml (s : String) :
    isAlphanumericStr (escapeHtml s) = isAlphanumericStr s := by
  cases hall : s.data.all isAlnumChar with
  | true =>
      have hmap : s.data.map escapeChar = s.data.map (fun c => [c]) := by
        apply List.map_congr_left
        intro c hc
        exact escapeChar_of_alnum (List.all_eq_true.mp hall c hc)
      unfold isAlphanumericStr escapeHtml
      rw [hmap, flatten_map_singleton]
  | false =>
      obtain ⟨c, hc, hcna⟩ := by simpa using List.all_eq_false.mp hall
      obtain ⟨d, hd, hdna⟩ := escapeChar_not_alnum (by simpa using hcna)
      have hmem : d ∈ ((escapeHtml s).data) := by
        unfold escapeHtml
        simp only [String.data]
        exact List.mem_flatten.mpr ⟨escapeChar c, List.mem_map.mpr ⟨c, hc, rfl⟩, hd⟩
      unfold isAlphanumericStr
      rw [hall]
      have hfall : (escapeHtml s).data.all isAlnumChar = false :=
        List.all_eq_false.mpr ⟨d, hmem, by simp [hdna]⟩
      rw [hfall]
      simp

/-- Escaping never shortens a value, so a length bound checked before
`.escape()` carries over to the stored value. -/
theorem length_le_escapeHtml (s : String) : s.length ≤ (escapeHtml s).length := by
  show s.data.length ≤ ((s.data.map escapeChar).flatten).length
  induction s.data with
  | nil => simp
  | cons c cs ih =>
      simp only [List.map_cons, List.flatten_cons, List.length_append, List.length_cons]
      have h1 : 1 ≤ (escapeChar c).length :=
        List.length_pos.mpr (escapeChar_ne_nil c)
      omega

/-! ## Claim theorems -/


/-- The update-by-identifier operation leaves the Author collection unchanged
when the identifier matches no document. -/
theorem authorFindByIdAndUpdate_no_match (as : List Author) (pid : Nat) (a : Author)
    (h : as.find? (fun d => d.id == pid) = none) :
    (authorFindByIdAndUpdate as pid a).2 = as := by
  unfold authorFindByIdAndUpdate
  have hall : ∀ d ∈ as, (if d.id == pid then { a with id := d.id } else d) = d := by
    intro d hd
    have hne := List.find?_eq_none.mp h d hd
    simp only [Bool.not_eq_true] at hne
    simp [hne]
  calc as.map (fun d => if d.id == pid then { a with id := d.id } else d)
      = as.map id := List.map_congr_left (fun d hd => hall d hd)
    _ = as := List.map_id as

/-- The name-chain errors vanish exactly when the trimmed value is nonempty
and alphanumeric (the escape step does not change the verdict). -/
theorem validateNameField_eq_nil (raw p em am : String) :
    ((validateNameField raw p em am).2 = []) ↔
      (1 ≤ (trimChars raw).length ∧ isAlphanumericStr (trimChars raw) = true) := by
  unfold validateNameField
  simp only [isAlphanumericStr_escapeHtml]
  constructor
  · intro h
    rcases List.append_eq_nil.mp h with ⟨h1, h2⟩
    constructor
    · by_contra hc
      simp [hc] at h1
    · by_contra hc
      simp [hc] at h2
  · rintro ⟨h1, h2⟩
    simp [h1, h2]

/-- The date-chain errors vanish exactly when the field is absent (falsy) or
an ISO-8601 date. -/
theorem validateDateField_eq_nil (raw p m : String) :
    ((validateDateField raw p m).2 = []) ↔ (raw = "" ∨ isISO8601 raw = true) := by
  unfold validateDateField
  by_cases h1 : raw = ""
  · simp [h1]
  · by_cases h2 : isISO8601 raw = true
    · simp [h1, h2]
    · simp [h1, h2]

/-- The author form passes validation exactly when both names are nonempty and
alphanumeric after trimming and both dates are absent or ISO-8601. -/
theorem validateAuthorForm_eq_nil (f : AuthorForm) :
    ((validateAuthorForm f).2 = []) ↔
      (1 ≤ (trimChars f.first_name).length ∧
       isAlphanumericStr (trimChars f.first_name) = true ∧
       1 ≤ (trimChars f.family_name).length ∧
       isAlphanumericStr (trimChars f.family_name) = true ∧
       (f.date_of_birth = "" ∨ isISO8601 f.date_of_birth = true) ∧
       (f.date_of_death = "" ∨ isISO8601 f.date_of_death = true)) := by
  unfold validateAuthorForm
  simp only [List.append_eq_nil]
  rw [validateNameField_eq_nil, validateNameField_eq_nil, validateDateField_eq_nil,
    validateDateField_eq_nil]
  tauto

/-- C1: for a valid create submission, an existing natural-key match is
redirected to without inserting; otherwise the candidate is inserted and its
url redirected to; a second identical submission yields the same response and
the same store. -/
theorem c1_create_duplicate_avoiding (σ : Store) (nameRaw : String) (f : AuthorForm)
    (id1 id2 : Nat)
    (hg : (validateGenreCreateName nameRaw).2 = [])
    (ha : (validateAuthorForm f).2 = []) :
    (∀ g, σ.genres.find? (fun d => d.name == (validateGenreCreateName nameRaw).1) = some g →
       genre_create_post σ nameRaw id1 = (.respond [.redirect (genreUrl g.id)], σ)) ∧
    (σ.genres.find? (fun d => d.name == (validateGenreCreateName nameRaw).1) = none →
       genre_create_post σ nameRaw id1 =
         (.respond [.redirect (genreUrl id1)],
          { σ with genres := σ.genres ++ [⟨id1, (validateGenreCreateName nameRaw).1⟩] })) ∧
    genre_create_post (genre_create_post σ nameRaw id1).2 nameRaw id2 =
      genre_create_post σ nameRaw id1 ∧
    (∀ a, σ.authors.find? (fun d => d.first_name == (validateAuthorForm f).1.1 &&
         d.family_name == (validateAuthorForm f).1.2.1) = some a →
       author_create_post σ f id1 = (.respond [.redirect (authorUrl a.id)], σ)) ∧
    (σ.authors.find? (fun d => d.first_name == (validateAuthorForm f).1.1 &&
         d.family_name == (validateAuthorForm f).1.2.1) = none →
       author_create_post σ f id1 =
         (.respond [.redirect (authorUrl id1)],
          { σ with authors := σ.authors ++ [⟨id1, (validateAuthorForm f).1.1,
             (validateAuthorForm f).1.2.1, (validateAuthorForm f).1.2.2.1,
             (validateAuthorForm f).1.2.2.2⟩] })) ∧
    author_create_post (author_create_post σ f id1).2 f id2 =
      author_create_post σ f id1 := by
  refine ⟨?_, ?_, ?_, ?_, ?_, ?_⟩
  · intro g hfind
    simp [genre_create_post, hg, hfind]
  · intro hfind
    simp [genre_create_post, hg, hfind]
  · cases hfind : σ.genres.find? (fun d => d.name == (validateGenreCreateName nameRaw).1) with
    | some g =>
        have h1 : genre_create_post σ nameRaw id1 = (.respond [.redirect (genreUrl g.id)], σ) := by
          simp [genre_create_post, hg, hfind]
        rw [h1]
        simp [genre_create_post, hg, hfind]
    | none =>
        have h1 : genre_create_post σ nameRaw id1 =
            (.respond [.redirect (genreUrl id1)],
             { σ with genres := σ.genres ++ [⟨id1, (validateGenreCreateName nameRaw).1⟩] }) := by
          simp [genre_create_post, hg, hfind]
        rw [h1]
        have hfind2 : (σ.genres ++ [(⟨id1, (validateGenreCreateName nameRaw).1⟩ : Genre)]).find?
            (fun d => d.name == (validateGenreCreateName nameRaw).1) =
            some ⟨id1, (validateGenreCreateName nameRaw).1⟩ := by
          rw [List.find?_append, hfind]
          simp [List.find?]
        simp [genre_create_post, hg, hfind2]
  · intro a hfind
    simp [author_create_post, ha, hfind]
  · intro hfind
    simp [author_create_post, ha, hfind]
  · cases hfind : σ.authors.find? (fun d => d.first_name == (validateAuthorForm f).1.1 &&
        d.family_name == (validateAuthorForm f).1.2.1) with
    | some a =>
        have h1 : author_create_post σ f id1 = (.respond [.redirect (authorUrl a.id)], σ) := by
          simp [author_create_post, ha, hfind]
        rw [h1]
        simp [author_create_post, ha, hfind]
    | none =>
        have h1 : author_create_post σ f id1 =
            (.respond [.redirect (authorUrl id1)],
             { σ with authors := σ.authors ++ [⟨id1, (validateAuthorForm f).1.1,
                (validateAuthorForm f).1.2.1, (validateAuthorForm f).1.2.2.1,
                (validateAuthorForm f).1.2.2.2⟩] }) := by
          simp [author_create_post, ha, hfind]
        rw [h1]
        have hfind2 : (σ.authors ++ [(⟨id1, (validateAuthorForm f).1.1,
            (validateAuthorForm f).1.2.1, (validateAuthorForm f).1.2.2.1,
            (validateAuthorForm f).1.2.2.2⟩ : Author)]).find?
            (fun d => d.first_name == (validateAuthorForm f).1.1 &&
              d.family_name == (validateAuthorForm f).1.2.1) =
            some ⟨id1, (validateAuthorForm f).1.1, (validateAuthorForm f).1.2.1,
              (validateAuthorForm f).1.2.2.1, (validateAuthorForm f).1.2.2.2⟩ := by
          rw [List.find?_append, hfind]
          simp [List.find?]
        simp [author_create_post, ha, hfind2]

/-- C1 witness: creating Fantasy twice on the empty store redirects to the
same url and leaves the store at one document. -/
theorem c1_witness :
    genre_create_post (genre_create_post emptyStore "Fantasy" 3).2 "Fantasy" 9 =
      genre_create_post emptyStore "Fantasy" 3 ∧
    author_create_post (author_create_post emptyStore ⟨"John", "Doe", "", ""⟩ 3).2
      ⟨"John", "Doe", "", ""⟩ 9 = author_create_post emptyStore ⟨"John", "Doe", "", ""⟩ 3 := by
  have h := c1_create_duplicate_avoiding emptyStore "Fantasy" ⟨"John", "Doe", "", ""⟩ 3 9
    (by decide) (by decide)
  exact ⟨h.2.2.1, h.2.2.2.2.2⟩

/-- C2 counterexample: the delete-confirmation request with route parameter 1
and form-body identifier 2 deletes genre 2 even though book 10 references it,
so a Genre can be deleted while a Book references it. -/
theorem c2_counterexample :
    mismatchStore.books.filter (fun b => b.genre == 2) ≠ [] ∧
    mismatchStore.genres.find? (fun g => g.id == 2) = some ⟨2, "BBB"⟩ ∧
    (genre_delete_post mismatchStore 1 2).2.genres.find? (fun g => g.id == 2) = none := by
  decide

/-- C2 amended: the guard re-renders with the blocking Books of the
route-parameter entity and deletes nothing when any exist; otherwise it deletes
the form-body-identified document and redirects to the list; so whenever the
two identifiers coincide, no entity with a referencing Book is deleted. -/
theorem c2_amended_delete_guard (σ : Store) (pid bid : Nat) :
    ((σ.books.filter (fun b => b.genre == pid)).length > 0 →
        genre_delete_post σ pid bid =
          (.respond [.render "genre_delete" (.genreDeleteView "Delete Genre"
            (σ.genres.find? (fun g => g.id == pid))
            (σ.books.filter (fun b => b.genre == pid)))], σ)) ∧
    ((σ.books.filter (fun b => b.genre == pid)).length = 0 →
        genre_delete_post σ pid bid =
          (.respond [.redirect "/catalog/genres"],
           { σ with genres := σ.genres.filter (fun g => !(g.id == bid)) })) ∧
    (pid = bid → ∀ g ∈ σ.genres, σ.books.filter (fun b => b.genre == g.id) ≠ [] →
        g ∈ (genre_delete_post σ pid bid).2.genres) ∧
    ((σ.books.filter (fun b => b.author == pid)).length > 0 →
        author_delete_post σ pid bid =
          (.respond [.render "author_delete" (.authorDeleteView "Delete Author"
            (σ.authors.find? (fun a => a.id == pid))
            (σ.books.filter (fun b => b.author == pid)))], σ)) ∧
    ((σ.books.filter (fun b => b.author == pid)).length = 0 →
        author_delete_post σ pid bid =
          (.respond [.redirect "/catalog/authors"],
           { σ with authors := σ.authors.filter (fun a => !(a.id == bid)) })) ∧
    (pid = bid → ∀ a ∈ σ.authors, σ.books.filter (fun b => b.author == a.id) ≠ [] →
        a ∈ (author_delete_post σ pid bid).2.authors) := by
  refine ⟨?_, ?_, ?_, ?_, ?_, ?_⟩
  · intro hlen
    simp [genre_delete_post, hlen]
  · intro hlen
    simp [genre_delete_post, hlen]
  · rintro rfl g hgmem hgbooks
    by_cases hlen : (σ.books.filter (fun b => b.genre == pid)).length > 0
    · simpa [genre_delete_post, hlen] using hgmem
    · have hnil : σ.books.filter (fun b => b.genre == pid) = [] :=
        List.length_eq_zero.mp (Nat.eq_zero_of_not_pos hlen)
      have hgid : ¬(g.id = pid) := by
        intro he
        rw [he] at hgbooks
        exact hgbooks hnil
      have heq : genre_delete_post σ pid pid =
          (.respond [.redirect "/catalog/genres"],
           { σ with genres := σ.genres.filter (fun g => !(g.id == pid)) }) := by
        simp [genre_delete_post, hnil]
      rw [heq]
      show g ∈ σ.genres.filter (fun g => !(g.id == pid))
      exact List.mem_filter.mpr ⟨hgmem, by simpa using hgid⟩
  · intro hlen
    simp [author_delete_post, hlen]
  · intro hlen
    simp [author_delete_post, hlen]
  · rintro rfl a hamem habooks
    by_cases hlen : (σ.books.filter (fun b => b.author == pid)).length > 0
    · simpa [author_delete_post, hlen] using hamem
    · have hnil : σ.books.filter (fun b => b.author == pid) = [] :=
        List.length_eq_zero.mp (Nat.eq_zero_of_not_pos hlen)
      have haid : ¬(a.id = pid) := by
        intro he
        rw [he] at habooks
        exact habooks hnil
      have heq : author_delete_post σ pid pid =
          (.respond [.redirect "/catalog/authors"],
           { σ with authors := σ.authors.filter (fun a => !(a.id == pid)) }) := by
        simp [author_delete_post, hnil]
      rw [heq]
      show a ∈ σ.authors.filter (fun a => !(a.id == pid))
      exact List.mem_filter.mpr ⟨hamem, by simpa using haid⟩

/-- C2 amended witness: with coinciding identifiers, deleting genre 2 of the
mismatch store is blocked by book 10 and the store is unchanged. -/
theorem c2_amended_witness :
    genre_delete_post mismatchStore 2 2 =
      (.respond [.render "genre_delete" (.genreDeleteView "Delete Genre"
        (some ⟨2, "BBB"⟩) [⟨10, "t", "s", 0, 2⟩])], mismatchStore) ∧
    (⟨2, "BBB"⟩ : Genre) ∈ (genre_delete_post mismatchStore 2 2).2.genres := by
  have h := c2_amended_delete_guard mismatchStore 2 2
  refine ⟨?_, h.2.2.1 rfl ⟨2, "BBB"⟩ (by decide) (by decide)⟩
  have h1 := h.1 (by decide)
  simpa using h1

/-- C3: the dependent-Book guard of the delete handlers is keyed on the route
parameter while the deletion removes the form-body-identified document: with
differing identifiers, a request whose route entity has no referencing Book
deletes the form-body document outright — even if Books reference it — and a
request whose route entity has referencing Books deletes nothing at all. -/
theorem c3_guard_and_delete_use_different_ids (σ : Store) (pid bid : Nat)
    (hne : pid ≠ bid) :
    (σ.books.filter (fun b => b.genre == pid) = [] →
       genre_delete_post σ pid bid =
         (.respond [.redirect "/catalog/genres"],
          { σ with genres := σ.genres.filter (fun g => !(g.id == bid)) }) ∧
       (genre_delete_post σ pid bid).2.genres.find? (fun g => g.id == bid) = none) ∧
    (σ.books.filter (fun b => b.genre == pid) ≠ [] →
       (genre_delete_post σ pid bid).2 = σ) ∧
    (σ.books.filter (fun b => b.author == pid) = [] →
       author_delete_post σ pid bid =
         (.respond [.redirect "/catalog/authors"],
          { σ with authors := σ.authors.filter (fun a => !(a.id == bid)) }) ∧
       (author_delete_post σ pid bid).2.authors.find? (fun a => a.id == bid) = none) ∧
    (σ.books.filter (fun b => b.author == pid) ≠ [] →
       (author_delete_post σ pid bid).2 = σ) := by
  refine ⟨?_, ?_, ?_, ?_⟩
  · intro hnil
    have heq : genre_delete_post σ pid bid =
        (.respond [.redirect "/catalog/genres"],
         { σ with genres := σ.genres.filter (fun g => !(g.id == bid)) }) := by
      simp [genre_delete_post, hnil]
    refine ⟨heq, ?_⟩
    rw [heq]
    apply List.find?_eq_none.mpr
    intro g hg
    have h2 : (g.id == bid) = false := by simpa using (List.mem_filter.mp hg).2
    simp [h2]
  · intro hnnil
    have hpos : (σ.books.filter (fun b => b.genre == pid)).length > 0 :=
      List.length_pos.mpr hnnil
    simp [genre_delete_post, hpos]
  · intro hnil
    have heq : author_delete_post σ pid bid =
        (.respond [.redirect "/catalog/authors"],
         { σ with authors := σ.authors.filter (fun a => !(a.id == bid)) }) := by
      simp [author_delete_post, hnil]
    refine ⟨heq, ?_⟩
    rw [heq]
    apply List.find?_eq_none.mpr
    intro a hamem
    have h2 : (a.id == bid) = false := by simpa using (List.mem_filter.mp hamem).2
    simp [h2]
  · intro hnnil
    have hpos : (σ.books.filter (fun b => b.author == pid)).length > 0 :=
      List.length_pos.mpr hnnil
    simp [author_delete_post, hpos]

/-- C3 witness: route parameter 1 (no referencing Books) and form body 2 on
the mismatch store delete genre 2 although book 10 references it. -/
theorem c3_witness :
    genre_delete_post mismatchStore 1 2 =
      (.respond [.redirect "/catalog/genres"], ⟨[⟨1, "AAA"⟩], [], [⟨10, "t", "s", 0, 2⟩]⟩) ∧
    (genre_delete_post mismatchStore 1 2).2.genres.find? (fun g => g.id == 2) = none := by
  have h := (c3_guard_and_delete_use_different_ids mismatchStore 1 2 (by decide)).1 (by decide)
  exact ⟨by rw [h.1]; decide, h.2⟩

/-- C4 counterexample: genre_update_post validates length ≥ 1 only, so the
two-character name ab passes update validation and is persisted, breaking the
stored-Genre name-length ≥ 3 invariant. -/
theorem c4_counterexample :
    (trimChars "ab").length = 2 ∧
    (validateGenreUpdateName "ab").2 = [] ∧
    genre_update_post ⟨[⟨1, "Fantasy"⟩], [], []⟩ 1 "ab" =
      (.respond [.redirect (genreUrl 1)], ⟨[⟨1, "ab"⟩], [], []⟩) := by decide

/-- C4 amended: create validation accepts exactly the names of trimmed length
≥ 3 and rejects shorter ones without persisting, so genres inserted by create
have names of length ≥ 3; update validation only requires trimmed length ≥ 1,
so the length-≥-3 invariant is not preserved by update. -/
theorem c4_amended_genre_name_length (σ : Store) (raw : String) (fid : Nat) :
    ((validateGenreCreateName raw).2 = [] ↔ 3 ≤ (trimChars raw).length) ∧
    ((trimChars raw).length < 3 →
       genre_create_post σ raw fid =
         (.respond [.render "genre_form" (.genreFormView "Create Genre"
           (some ⟨fid, (validateGenreCreateName raw).1⟩)
           (some [⟨"name", "Genre name must contain at least 3 characters"⟩]))], σ)) ∧
    (∀ g ∈ (genre_create_post σ raw fid).2.genres, g ∈ σ.genres ∨ 3 ≤ g.name.length) ∧
    ((validateGenreUpdateName raw).2 = [] ↔ 1 ≤ (trimChars raw).length) := by
  refine ⟨?_, ?_, ?_, ?_⟩
  · unfold validateGenreCreateName
    constructor
    · intro h
      by_contra hc
      simp [hc] at h
    · intro h
      simp [h]
  · intro hlt
    have hne : (validateGenreCreateName raw).2 =
        [⟨"name", "Genre name must contain at least 3 characters"⟩] := by
      unfold validateGenreCreateName
      simp [Nat.not_le.mpr hlt]
    simp [genre_create_post, hne]
  · intro g hg
    by_cases h3 : 3 ≤ (trimChars raw).length
    · have hval : (validateGenreCreateName raw).2 = [] := by
        unfold validateGenreCreateName
        simp [h3]
      cases hfind : σ.genres.find? (fun d => d.name == (validateGenreCreateName raw).1) with
      | some g0 =>
          have heq : genre_create_post σ raw fid = (.respond [.redirect (genreUrl g0.id)], σ) := by
            simp [genre_create_post, hval, hfind]
          rw [heq] at hg
          exact Or.inl hg
      | none =>
          have heq : genre_create_post σ raw fid =
              (.respond [.redirect (genreUrl fid)],
               { σ with genres := σ.genres ++ [⟨fid, (validateGenreCreateName raw).1⟩] }) := by
            simp [genre_create_post, hval, hfind]
          rw [heq] at hg
          rcases List.mem_append.mp hg with hin | hnew
          · exact Or.inl hin
          · right
            have hgeq : g = ⟨fid, (validateGenreCreateName raw).1⟩ := by
              simpa using hnew
            rw [hgeq]
            show 3 ≤ (escapeHtml (trimChars raw)).length
            exact le_trans h3 (length_le_escapeHtml (trimChars raw))
    · have hne : (validateGenreCreateName raw).2 =
          [⟨"name", "Genre name must contain at least 3 characters"⟩] := by
        unfold validateGenreCreateName
        simp [h3]
      have heq : genre_create_post σ raw fid =
          (.respond [.render "genre_form" (.genreFormView "Create Genre"
            (some ⟨fid, (validateGenreCreateName raw).1⟩)
            (some [⟨"name", "Genre name must contain at least 3 characters"⟩]))], σ) := by
        simp [genre_create_post, hne]
      rw [heq] at hg
      exact Or.inl hg
  · unfold validateGenreUpdateName
    constructor
    · intro h
      by_contra hc
      simp [hc] at h
    · intro h
      simp [h]

/-- C4 amended witness: the two-character submission ab is rejected by create
validation but accepted by update validation. -/
theorem c4_amended_witness :
    ¬((validateGenreCreateName "ab").2 = []) ∧
    (validateGenreUpdateName "ab").2 = [] ∧
    genre_create_post ⟨[], [], []⟩ "ab" 3 =
      (.respond [.render "genre_form" (.genreFormView "Create Genre"
        (some ⟨3, "ab"⟩)
        (some [⟨"name", "Genre name must contain at least 3 characters"⟩]))], ⟨[], [], []⟩) := by
  have h := c4_amended_genre_name_length ⟨[], [], []⟩ "ab" 3
  exact ⟨fun he => absurd (h.1.mp he) (by decide), h.2.2.2.mpr (by decide), h.2.1 (by decide)⟩

/-- C5 counterexample: on an absent genre identifier, genre_delete_get
redirects to /catalog/genre — not the /catalog/genres list path every other
genre redirect uses — and, lacking an early return, still attempts to render
the delete view, so the response is not a silent redirect to the list view. -/
theorem c5_counterexample :
    genre_delete_get emptyStore 5 =
      .respond [.redirect "/catalog/genre",
        .render "genre_delete" (.genreDeleteView "Delete Genre" none [])] ∧
    (genre_delete_get emptyStore 5).renders ≠ [] ∧
    (genre_delete_get emptyStore 5).first = some (.redirect "/catalog/genre") ∧
    "/catalog/genre" ≠ "/catalog/genres" := by decide

/-- C5 amended: detail (both entities) and author_update_get propagate a
404 error on an absent entity; genre_update_get and author_delete_get first
redirect to their list paths and genre_delete_get to /catalog/genre, and all
three then additionally attempt to render their view with a null entity. -/
theorem c5_amended_absent_entity_policy (σ : Store) (pid : Nat)
    (hg : σ.genres.find? (fun g => g.id == pid) = none)
    (ha : σ.authors.find? (fun a => a.id == pid) = none) :
    genre_detail σ pid = .nextError "Genre not found" 404 ∧
    author_detail σ pid = .nextError "Author not found" 404 ∧
    author_update_get σ pid = .nextError "Author not found" 404 ∧
    genre_update_get σ pid = .respond [.redirect "/catalog/genres",
      .render "genre_form" (.genreFormView "Update Genre" none none)] ∧
    genre_delete_get σ pid = .respond [.redirect "/catalog/genre",
      .render "genre_delete" (.genreDeleteView "Delete Genre" none
        (σ.books.filter (fun b => b.genre == pid)))] ∧
    author_delete_get σ pid = .respond [.redirect "/catalog/authors",
      .render "author_delete" (.authorDeleteView "Delete Author" none
        (σ.books.filter (fun b => b.author == pid)))] := by
  refine ⟨?_, ?_, ?_, ?_, ?_, ?_⟩ <;>
    simp [genre_detail, author_detail, author_update_get, genre_update_get,
      genre_delete_get, author_delete_get, hg, ha]

/-- C5 amended witness: the concrete absent identifier 5 on the empty store. -/
theorem c5_amended_witness :
    genre_detail emptyStore 5 = .nextError "Genre not found" 404 ∧
    genre_update_get emptyStore 5 = .respond [.redirect "/catalog/genres",
      .render "genre_form" (.genreFormView "Update Genre" none none)] := by
  have h := c5_amended_absent_entity_policy emptyStore 5 (by decide) (by decide)
  exact ⟨h.1, h.2.2.2.1⟩

/-- C6: whenever validation rejects a create or update submission of either
entity, the handler re-renders the originating form with the candidate entity
built from the sanitized submission and the ordered error list, and the store
is untouched. -/
theorem c6_validation_failure_non_persisting (σ : Store) (rawC rawU : String)
    (f : AuthorForm) (fid pid : Nat)
    (hc : (validateGenreCreateName rawC).2 ≠ [])
    (hu : (validateGenreUpdateName rawU).2 ≠ [])
    (ha : (validateAuthorForm f).2 ≠ []) :
    genre_create_post σ rawC fid =
      (.respond [.render "genre_form" (.genreFormView "Create Genre"
        (some ⟨fid, (validateGenreCreateName rawC).1⟩)
        (some (validateGenreCreateName rawC).2))], σ) ∧
    genre_update_post σ pid rawU =
      (.respond [.render "genre_form" (.genreFormView "Update Genre"
        (some ⟨pid, (validateGenreUpdateName rawU).1⟩)
        (some (validateGenreUpdateName rawU).2))], σ) ∧
    author_create_post σ f fid =
      (.respond [.render "author_form" (.authorFormView "Create Author"
        (some ⟨fid, (validateAuthorForm f).1.1, (validateAuthorForm f).1.2.1,
          (validateAuthorForm f).1.2.2.1, (validateAuthorForm f).1.2.2.2⟩)
        (some (validateAuthorForm f).2))], σ) ∧
    author_update_post σ pid f =
      (.respond [.render "author_form" (.authorFormView "Update Author"
        (some ⟨pid, (validateAuthorForm f).1.1, (validateAuthorForm f).1.2.1,
          (validateAuthorForm f).1.2.2.1, (validateAuthorForm f).1.2.2.2⟩)
        (some (validateAuthorForm f).2))], σ) := by
  refine ⟨?_, ?_, ?_, ?_⟩ <;>
    simp [genre_create_post, genre_update_post, author_create_post, author_update_post,
      List.isEmpty_eq_false_iff_exists_mem, hc, hu, ha,
      List.isEmpty_iff, List.isEmpty_eq_false]

/-- C6 witness: a short genre name, a blank genre name, and a non-alphanumeric
author first name, all on the empty store. -/
theorem c6_witness :
    genre_create_post emptyStore "ab" 3 =
      (.respond [.render "genre_form" (.genreFormView "Create Genre"
        (some ⟨3, "ab"⟩)
        (some [⟨"name", "Genre name must contain at least 3 characters"⟩]))], emptyStore) ∧
    genre_update_post emptyStore 1 " " =
      (.respond [.render "genre_form" (.genreFormView "Update Genre"
        (some ⟨1, ""⟩) (some [⟨"name", "Invalid Genre Value"⟩]))], emptyStore) := by
  have h := c6_validation_failure_non_persisting emptyStore "ab" " " ⟨"John2!", "Doe", "", ""⟩
    3 1 (by decide) (by decide) (by decide)
  exact ⟨h.1, h.2.1⟩

/-- C7: a successful update pins the candidate identifier to the route
parameter and overwrites the stored document's fields in place by an
update-by-identifier operation: the identifier sequence of the collection is
unchanged (identifier before == identifier after, hence the same url), the
response redirects to the identifier-derived url, and no natural-key lookup
guards the write (the equations hold for every store, duplicates included). -/
theorem c7_update_overwrites_in_place (σ : Store) (rawU : String) (f : AuthorForm)
    (pid : Nat) (gOld : Genre) (aOld : Author)
    (hvg : (validateGenreUpdateName rawU).2 = [])
    (hva : (validateAuthorForm f).2 = [])
    (hgex : σ.genres.find? (fun g => g.id == pid) = some gOld)
    (haex : σ.authors.find? (fun a => a.id == pid) = some aOld) :
    genre_update_post σ pid rawU =
      (.respond [.redirect (genreUrl pid)],
       { σ with genres := σ.genres.map (fun d =>
           if d.id == pid then ⟨d.id, (validateGenreUpdateName rawU).1⟩ else d) }) ∧
    (genre_update_post σ pid rawU).2.genres.map (fun g => g.id) =
      σ.genres.map (fun g => g.id) ∧
    author_update_post σ pid f =
      (.respond [.redirect (authorUrl pid)],
       { σ with authors := σ.authors.map (fun d =>
           if d.id == pid then ⟨d.id, (validateAuthorForm f).1.1, (validateAuthorForm f).1.2.1,
             (validateAuthorForm f).1.2.2.1, (validateAuthorForm f).1.2.2.2⟩ else d) }) ∧
    (author_update_post σ pid f).2.authors.map (fun a => a.id) =
      σ.authors.map (fun a => a.id) := by
  have hgid : gOld.id = pid := by simpa using List.find?_some hgex
  have hgeq : genre_update_post σ pid rawU =
      (.respond [.redirect (genreUrl gOld.id)],
       { σ with genres := σ.genres.map (fun d =>
           if d.id == pid then ⟨d.id, (validateGenreUpdateName rawU).1⟩ else d) }) := by
    simp [genre_update_post, genreFindByIdAndUpdate, hvg, hgex]
  have haeq : author_update_post σ pid f =
      (.respond [.redirect (authorUrl pid)],
       { σ with authors := σ.authors.map (fun d =>
           if d.id == pid then ⟨d.id, (validateAuthorForm f).1.1, (validateAuthorForm f).1.2.1,
             (validateAuthorForm f).1.2.2.1, (validateAuthorForm f).1.2.2.2⟩ else d) }) := by
    simp [author_update_post, authorFindByIdAndUpdate, hva]
  refine ⟨by rw [hgeq, hgid], ?_, haeq, ?_⟩
  · rw [hgeq]
    show (σ.genres.map (fun d =>
        if d.id == pid then (⟨d.id, (validateGenreUpdateName rawU).1⟩ : Genre) else d)).map
        (fun g => g.id) = σ.genres.map (fun g => g.id)
    rw [List.map_map]
    apply List.map_congr_left
    intro d _
    simp only [Function.comp_apply]
    split <;> rfl
  · rw [haeq]
    show (σ.authors.map (fun d =>
        if d.id == pid then (⟨d.id, (validateAuthorForm f).1.1, (validateAuthorForm f).1.2.1,
          (validateAuthorForm f).1.2.2.1, (validateAuthorForm f).1.2.2.2⟩ : Author) else d)).map
        (fun a => a.id) = σ.authors.map (fun a => a.id)
    rw [List.map_map]
    apply List.map_congr_left
    intro d _
    simp only [Function.comp_apply]
    split <;> rfl

/-- C7 witness: updating genre 1 and author 1 of a one-document store. -/
theorem c7_witness :
    genre_update_post ⟨[⟨1, "Old"⟩], [⟨1, "A", "B", none, none⟩], []⟩ 1 "Fantasy" =
      (.respond [.redirect (genreUrl 1)],
       ⟨[⟨1, "Fantasy"⟩], [⟨1, "A", "B", none, none⟩], []⟩) ∧
    author_update_post ⟨[⟨1, "Old"⟩], [⟨1, "A", "B", none, none⟩], []⟩ 1
      ⟨"John", "Doe", "", ""⟩ =
      (.respond [.redirect (authorUrl 1)],
       ⟨[⟨1, "Old"⟩], [⟨1, "John", "Doe", none, none⟩], []⟩) := by
  have h := c7_update_overwrites_in_place ⟨[⟨1, "Old"⟩], [⟨1, "A", "B", none, none⟩], []⟩
    "Fantasy" ⟨"John", "Doe", "", ""⟩ 1 ⟨1, "Old"⟩ ⟨1, "A", "B", none, none⟩
    (by decide) (by decide) (by decide) (by decide)
  exact ⟨by rw [h.1]; decide, by rw [h.2.2.1]; decide⟩

/-- C8: the author create submission passes validation exactly when
first_name and family_name are nonempty and alphanumeric after trimming and
the dates are absent or ISO-8601; a non-alphanumeric first name puts the
field-specific message in the error list, the form is re-rendered with the
candidate, and nothing is persisted. -/
theorem c8_author_name_validation (σ : Store) (f : AuthorForm) (fid : Nat) :
    (((validateAuthorForm f).2 = []) ↔
      (1 ≤ (trimChars f.first_name).length ∧
       isAlphanumericStr (trimChars f.first_name) = true ∧
       1 ≤ (trimChars f.family_name).length ∧
       isAlphanumericStr (trimChars f.family_name) = true ∧
       (f.date_of_birth = "" ∨ isISO8601 f.date_of_birth = true) ∧
       (f.date_of_death = "" ∨ isISO8601 f.date_of_death = true))) ∧
    (isAlphanumericStr (trimChars f.first_name) = false →
       FieldError.mk "first_name" "First name has non-alphanumeric characters"
         ∈ (validateAuthorForm f).2 ∧
       (author_create_post σ f fid).2 = σ ∧
       (author_create_post σ f fid).1 =
         .respond [.render "author_form" (.authorFormView "Create Author"
           (some ⟨fid, (validateAuthorForm f).1.1, (validateAuthorForm f).1.2.1,
             (validateAuthorForm f).1.2.2.1, (validateAuthorForm f).1.2.2.2⟩)
           (some (validateAuthorForm f).2))]) := by
  refine ⟨validateAuthorForm_eq_nil f, ?_⟩
  intro hna
  have hmem : FieldError.mk "first_name" "First name has non-alphanumeric characters"
      ∈ (validateAuthorForm f).2 := by
    unfold validateAuthorForm validateNameField
    simp only [isAlphanumericStr_escapeHtml]
    simp [hna]
  have hne : (validateAuthorForm f).2 ≠ [] := by
    intro he
    have hiff := (validateAuthorForm_eq_nil f).mp he
    rw [hna] at hiff
    exact absurd hiff.2.1 (by simp)
  have heq : author_create_post σ f fid =
      (.respond [.render "author_form" (.authorFormView "Create Author"
        (some ⟨fid, (validateAuthorForm f).1.1, (validateAuthorForm f).1.2.1,
          (validateAuthorForm f).1.2.2.1, (validateAuthorForm f).1.2.2.2⟩)
        (some (validateAuthorForm f).2))], σ) := by
    simp [author_create_post, hne]
  exact ⟨hmem, by rw [heq], by rw [heq]⟩

/-- C8 witness: the submission John2! is non-alphanumeric after trimming and
is rejected without persistence. -/
theorem c8_witness :
    FieldError.mk "first_name" "First name has non-alphanumeric characters"
      ∈ (validateAuthorForm ⟨"John2!", "Doe", "", ""⟩).2 ∧
    (author_create_post ⟨[], [], []⟩ ⟨"John2!", "Doe", "", ""⟩ 1).2 = ⟨[], [], []⟩ := by
  have h := (c8_author_name_validation ⟨[], [], []⟩ ⟨"John2!", "Doe", "", ""⟩ 1).2 (by decide)
  exact ⟨h.1, h.2.1⟩

/-- C9: a valid genre update aimed at an identifier matching no stored Genre
dereferences the null result of findByIdAndUpdate and raises an unhandled
TypeError, while the author update handler redirects using its own candidate
and leaves the store unchanged. -/
theorem c9_genre_update_null_deref (σ : Store) (pid : Nat) (rawU : String) (f : AuthorForm)
    (hvg : (validateGenreUpdateName rawU).2 = [])
    (hva : (validateAuthorForm f).2 = [])
    (hgabs : σ.genres.find? (fun g => g.id == pid) = none)
    (haabs : σ.authors.find? (fun a => a.id == pid) = none) :
    genre_update_post σ pid rawU = (.nullUrlError, σ) ∧
    author_update_post σ pid f = (.respond [.redirect (authorUrl pid)], σ) := by
  constructor
  · simp [genre_update_post, genreFindByIdAndUpdate, hvg, hgabs]
  · have hmap := authorFindByIdAndUpdate_no_match σ.authors pid
      ⟨pid, (validateAuthorForm f).1.1, (validateAuthorForm f).1.2.1,
        (validateAuthorForm f).1.2.2.1, (validateAuthorForm f).1.2.2.2⟩ haabs
    simp [author_update_post, hva, hmap]

/-- C9 witness: identifier 7 on the empty store with valid submissions. -/
theorem c9_witness :
    genre_update_post emptyStore 7 "Fantasy" = (.nullUrlError, emptyStore) ∧
    author_update_post emptyStore 7 ⟨"John", "Doe", "", ""⟩ =
      (.respond [.redirect (authorUrl 7)], emptyStore) :=
  c9_genre_update_null_deref emptyStore 7 "Fantasy" ⟨"John", "Doe", "", ""⟩
    (by decide) (by decide) (by decide) (by decide)

/-- C10: author_list renders all Author documents sorted by family_name
ascending; genre_list renders all Genre documents in natural store order;
no pagination and no filtering (the rendered lists are permutations of,
respectively exactly, the stored collections). -/
theorem c10_list_endpoints (σ : Store) :
    author_list σ = .respond [.render "author_list" (.authorListView "Author List"
      (List.insertionSort (fun a b : Author => a.family_name ≤ b.family_name) σ.authors))] ∧
    List.Sorted (fun a b : Author => a.family_name ≤ b.family_name)
      (List.insertionSort (fun a b : Author => a.family_name ≤ b.family_name) σ.authors) ∧
    (List.insertionSort (fun a b : Author => a.family_name ≤ b.family_name) σ.authors).Perm
      σ.authors ∧
    genre_list σ = .respond [.render "genre_list" (.genreListView "Genre List" σ.genres)] :=
  ⟨rfl, List.sorted_insertionSort _ _, List.perm_insertionSort _ _, rfl⟩
